import Mathlib

/-
Shallow embedding of the openpay customer resource client (src/customer.go).

The data shapes (Customer, Address, StoreReference, CustomerArgs, ChargeArgs,
Charge) are transcribed from the Go struct declarations.  Go field types are
mapped as: string to String, bool to Bool, float64 to Float, time.Time to the
String it serializes as, pointers to Option.

The merchant/session collaborator (Merchant, its client, newRequest, perform)
is repository code that is not under src/, so it is modelled from the spec
where marked.  Serialization follows the semantics of Go encoding/json applied
to the struct tags written in src/customer.go.

Each operation is transcribed from the Go source and additionally returns the
list of perform calls it executed (the HTTP requests actually issued), so that
claims of the form "issues exactly one request to path p" are statable.
-/

/-- A JSON value, the wire representation produced by Go encoding/json. -/
inductive Json where
  | null
  | str (s : String)
  | num (x : Float)
  | bool (b : Bool)
  | obj (fields : List (String × Json))
  | arr (elems : List Json)

/-- An opaque error value, as produced by the collaborator.  The component
propagates these values unchanged, so only their identity matters. -/
structure Err where
  msg : String
deriving DecidableEq

/-- Address, transcribed from src/customer.go lines 28-36. -/
structure Address where
  Line1 : String
  Line2 : String
  Line3 : String
  PostalCode : String
  State : String
  City : String
  CountryCode : String

/-- StoreReference, transcribed from src/customer.go lines 39-44. -/
structure StoreReference where
  Reference : String
  BarcodeURL : String
  PaybinReference : String
  BarcodePaybinURL : String

/-- The JSON-tagged fields of Customer (src/customer.go lines 9-20), i.e. the
part of a Customer that the wire can carry.  The untagged Merchant pointer is
added in Customer below: response bodies do not carry it, so a decode fills
exactly these fields. -/
structure CustomerData where
  ID : String
  CreationDate : String
  Name : String
  LastName : String
  Email : String
  PhoneNumber : String
  Status : String
  Balance : Float
  CLABE : String
  Address : Address
  Store : StoreReference

/-- CustomerArgs, transcribed from src/customer.go lines 48-56. -/
structure CustomerArgs where
  ExternalID : String
  Name : String
  LastName : String
  Email : String
  RequiresAccount : Bool
  PhoneNumber : String
  Address : Address

/-- ChargeArgs, transcribed from src/customer.go lines 60-68. -/
structure ChargeArgs where
  Source_id : String
  Method : String
  Amount : Float
  Currency : String
  Description : String
  Order_id : String
  Device_session_id : String

/-- The anonymous card struct nested in Charge (src/customer.go lines 76-93).
The source field named Type is rendered CardType because Type is reserved. -/
structure ChargeCard where
  ID : String
  CardType : String
  Brand : String
  Address : Address
  CardNumber : String
  HolderName : String
  ExpirationYear : String
  ExpirationMonth : String
  AllowsCharges : Bool
  AllowsPayouts : Bool
  CreationDate : String
  BankName : String
  PointsType : String
  PointsCard : Bool
  CustomerID : String
  BankCode : String

/-- The anonymous fee struct nested in Charge (src/customer.go lines 104-107). -/
structure ChargeFee where
  Amount : Float
  Tax : Float

/-- Charge, transcribed from src/customer.go lines 70-108. -/
structure Charge where
  ID : String
  Authorization : String
  OperationType : String
  Method : String
  TransactionType : String
  Card : ChargeCard
  Status : String
  Conciliated : Bool
  CreationDate : String
  OperationDate : String
  Description : String
  ErrorMessage : Option String
  OrderID : String
  CustomerID : String
  Amount : Float
  Currency : String
  Fee : ChargeFee

/-- Modelled from the spec (section 6): a request built by newRequest carries
the HTTP verb, the relative resource path, and the body serialized as the
request payload. -/
structure Request where
  verb : String
  path : String
  body : Option Json

/-- The shape of the destination argument handed to perform: nil (nodst), a
single Customer, a slice of Customers, or a caller-supplied charge result. -/
inductive Dst where
  | nodst
  | customer
  | customers
  | charge
deriving DecidableEq

/-- The value perform writes into a destination of each shape.  A Customer
destination receives only the JSON-tagged fields (CustomerData): response
bodies carry no Merchant key, so the untagged pointer stays nil after decode,
and every operation that returns customers overwrites it anyway. -/
def DstVal : Dst → Type
  | .nodst => Unit
  | .customer => CustomerData
  | .customers => List CustomerData
  | .charge => Charge

/-- One executed HTTP round trip: the request performed and the destination
shape its response was deserialized into. -/
structure PerformCall where
  req : Request
  dst : Dst

/-- Modelled from the spec (section 6): the session/transport collaborator.
Whether each call fails, and the value a successful perform deserializes,
are arbitrary oracles; on success newRequest builds exactly the request it
was asked for. -/
structure Client where
  newRequestErr : String → String → Option Json → Option Err
  performErr : Request → Dst → Option Err
  customerResult : Request → CustomerData
  customersResult : Request → List CustomerData
  chargeResult : Request → Charge

/-- Modelled from the spec (section 6): newRequest(verb, path, body) builds a
request for the given verb and relative path with body as payload, or fails. -/
def Client.newRequest (cl : Client) (verb path : String) (body : Option Json) :
    Except Err Request :=
  match cl.newRequestErr verb path body with
  | some e => .error e
  | none => .ok ⟨verb, path, body⟩

/-- The value a successful perform writes into the destination. -/
def Client.performValue (cl : Client) (req : Request) : (d : Dst) → DstVal d
  | .nodst => ()
  | .customer => cl.customerResult req
  | .customers => cl.customersResult req
  | .charge => cl.chargeResult req

/-- Modelled from the spec (section 6): perform(request, destination) executes
the request and deserializes the response into the destination, or fails. -/
def Client.perform (cl : Client) (req : Request) (d : Dst) :
    Except Err (DstVal d) :=
  match cl.performErr req d with
  | some e => .error e
  | none => .ok (cl.performValue req d)

/-- Modelled from the spec (glossary): the Merchant/session context holds the
client collaborator used to issue requests.  Its fields are unexported in the
source package, so encoding/json never serializes any of them. -/
structure Merchant where
  client : Client

/-- Customer, transcribed from src/customer.go lines 9-25: the JSON-tagged
fields plus the untagged Merchant back-reference pointer (nil as none). -/
structure Customer extends CustomerData where
  Merchant : Option Merchant

/-- JSON encoding of Address under its struct tags (src/customer.go lines
28-36); no tag carries omitempty, so every field is always emitted. -/
def encodeAddress (a : Address) : List (String × Json) :=
  [("line1", Json.str a.Line1),
   ("line2", Json.str a.Line2),
   ("line3", Json.str a.Line3),
   ("postal_code", Json.str a.PostalCode),
   ("state", Json.str a.State),
   ("city", Json.str a.City),
   ("country_code", Json.str a.CountryCode)]

/-- JSON encoding of StoreReference under its struct tags (src/customer.go
lines 39-44). -/
def encodeStoreReference (s : StoreReference) : List (String × Json) :=
  [("reference", Json.str s.Reference),
   ("barcode_url", Json.str s.BarcodeURL),
   ("paybin_reference", Json.str s.PaybinReference),
   ("barcode_paybin_url", Json.str s.BarcodePaybinURL)]

/-- JSON encoding of CustomerArgs under its struct tags (src/customer.go lines
48-56), following Go encoding/json semantics: omitempty drops an empty string
field, but has no effect on a struct-typed field, so the address object is
always emitted even when every one of its fields is empty. -/
def encodeCustomerArgs (a : CustomerArgs) : List (String × Json) :=
  (if a.ExternalID = "" then [] else [("external_id", Json.str a.ExternalID)]) ++
  [("name", Json.str a.Name)] ++
  (if a.LastName = "" then [] else [("last_name", Json.str a.LastName)]) ++
  [("email", Json.str a.Email),
   ("requires_acount", Json.bool a.RequiresAccount)] ++
  (if a.PhoneNumber = "" then [] else [("phone_number", Json.str a.PhoneNumber)]) ++
  [("address", Json.obj (encodeAddress a.Address))]

/-- Encoding of the untagged Merchant pointer field: a nil pointer encodes as
null; a non-nil pointer encodes the Merchant struct, whose fields are all
unexported (modelled from the spec), hence an empty object. -/
def encodeMerchantField : Option Merchant → Json
  | none => Json.null
  | some _ => Json.obj []

/-- JSON encoding of Customer under its struct tags (src/customer.go lines
9-25), following Go encoding/json semantics.  Only the id tag carries
omitempty.  The Merchant field has no json tag at all (and no json dash tag),
so encoding/json serializes it under the field name Merchant. -/
def encodeCustomer (c : Customer) : List (String × Json) :=
  (if c.ID = "" then [] else [("id", Json.str c.ID)]) ++
  [("creation_date", Json.str c.CreationDate),
   ("name", Json.str c.Name),
   ("last_name", Json.str c.LastName),
   ("email", Json.str c.Email),
   ("phone_number", Json.str c.PhoneNumber),
   ("status", Json.str c.Status),
   ("balance", Json.num c.Balance),
   ("clabe", Json.str c.CLABE),
   ("address", Json.obj (encodeAddress c.Address)),
   ("store", Json.obj (encodeStoreReference c.Store)),
   ("Merchant", encodeMerchantField c.Merchant)]

/-- performCustomerOperation, transcribed from src/customer.go lines 170-180:
build a request for verb on customers/<id> with the given body, return the
error if building fails, otherwise perform it and return its outcome.  The
second component is the trace of perform calls executed. -/
def Merchant.performCustomerOperation (m : Merchant) (verb id : String)
    (data : Option Json) (d : Dst) : Except Err (DstVal d) × List PerformCall :=
  let client := m.client
  match client.newRequest verb ("customers/" ++ id) data with
  | .error e => (.error e, [])
  | .ok req =>
    match client.perform req d with
    | .error e => (.error e, [⟨req, d⟩])
    | .ok v => (.ok v, [⟨req, d⟩])

/-- AddCustomer, transcribed from src/customer.go lines 111-123: POST the
serialized args to customers, propagate any error, otherwise set Merchant on
the decoded customer and return it. -/
def Merchant.AddCustomer (m : Merchant) (args : CustomerArgs) :
    Except Err Customer × List PerformCall :=
  match m.client.newRequest "POST" "customers"
      (some (Json.obj (encodeCustomerArgs args))) with
  | .error e => (.error e, [])
  | .ok req =>
    match m.client.perform req .customer with
    | .error e => (.error e, [⟨req, .customer⟩])
    | .ok data => (.ok { toCustomerData := data, Merchant := some m },
                   [⟨req, .customer⟩])

/-- GetCustomers, transcribed from src/customer.go lines 126-139: GET on
customers, propagate any error, otherwise set Merchant on every element of the
decoded slice, in place, and return the slice. -/
def Merchant.GetCustomers (m : Merchant) :
    Except Err (List Customer) × List PerformCall :=
  match m.client.newRequest "GET" "customers" none with
  | .error e => (.error e, [])
  | .ok req =>
    match m.client.perform req .customers with
    | .error e => (.error e, [⟨req, .customers⟩])
    | .ok ds => (.ok (ds.map fun d => { toCustomerData := d, Merchant := some m }),
                 [⟨req, .customers⟩])

/-- GetCustomer, transcribed from src/customer.go lines 142-149: GET on
customers/<id> through performCustomerOperation, propagate any error,
otherwise set Merchant on the decoded customer and return it. -/
def Merchant.GetCustomer (m : Merchant) (id : String) :
    Except Err Customer × List PerformCall :=
  match m.performCustomerOperation "GET" id none .customer with
  | (.error e, tr) => (.error e, tr)
  | (.ok data, tr) => (.ok { toCustomerData := data, Merchant := some m }, tr)

/-- UpdateCustomer, transcribed from src/customer.go lines 152-159: PUT the
serialized customer data to customers/<id> through performCustomerOperation,
propagate any error, otherwise set Merchant on the decoded customer. -/
def Merchant.UpdateCustomer (m : Merchant) (id : String) (data : Customer) :
    Except Err Customer × List PerformCall :=
  match m.performCustomerOperation "PUT" id
      (some (Json.obj (encodeCustomer data))) .customer with
  | (.error e, tr) => (.error e, tr)
  | (.ok cd, tr) => (.ok { toCustomerData := cd, Merchant := some m }, tr)

/-- DeleteCustomer, transcribed from src/customer.go lines 162-164: DELETE on
customers/<id> with nil body and nil destination. -/
def Merchant.DeleteCustomer (m : Merchant) (id : String) :
    Except Err Unit × List PerformCall :=
  m.performCustomerOperation "DELETE" id none .nodst

/-- Outcome of running a Go method that can hit a nil-pointer dereference:
either the run panics or it completes with a value. -/
inductive Exec (α : Type) where
  | nilPanic
  | ok (a : α)

/-- Whether a run completed and handed any outcome (a value or an error) back
to the caller; a nil-pointer panic hands back nothing. -/
def Exec.completes {α : Type} : Exec α → Bool
  | .nilPanic => false
  | .ok _ => true

/-- ChargeCustomer, transcribed from src/customer.go lines 166-168: call
performCustomerOperation on the Merchant back-reference with a POST to
<id>/charges (which the helper prefixes to customers/<id>/charges).  When the
Merchant pointer is nil the method call reaches performCustomerOperation with
a nil receiver and the access m.client dereferences it, so the run panics. -/
def Customer.ChargeCustomer (c : Customer) (data : Option Json) (d : Dst) :
    Exec (Except Err (DstVal d) × List PerformCall) :=
  match c.Merchant with
  | none => .nilPanic
  | some m => .ok (m.performCustomerOperation "POST" (c.ID ++ "/charges") data d)

/-- An all-empty Address, the Go zero value. -/
def addr0 : Address := ⟨"", "", "", "", "", "", ""⟩

/-- An all-empty StoreReference, the Go zero value. -/
def store0 : StoreReference := ⟨"", "", "", ""⟩

/-- The customer data of the end-to-end scenario: id cust_1, name Ana, every
other field the zero value. -/
def anaData : CustomerData :=
  { ID := "cust_1", CreationDate := "", Name := "Ana", LastName := "",
    Email := "", PhoneNumber := "", Status := "", Balance := 0.0, CLABE := "",
    Address := addr0, Store := store0 }

/-- A second customer datum, to exercise order preservation in lists. -/
def bobData : CustomerData :=
  { anaData with ID := "cust_2", Name := "Bob" }

/-- A zero-value card snapshot. -/
def card0 : ChargeCard :=
  ⟨"", "", "", addr0, "", "", "", "", false, false, "", "", "", false, "", ""⟩

/-- A zero-value Charge. -/
def charge0 : Charge :=
  ⟨"", "", "", "", "", card0, "", false, "", "", "", none, "", "", 0.0, "",
   ⟨0.0, 0.0⟩⟩

/-- A mock collaborator on which every call succeeds: GET customers/cust_1
style fetches populate the destination with the Ana record, and the list
fetch yields the pair Ana then Bob. -/
def okClient : Client :=
  { newRequestErr := fun _ _ _ => none
    performErr := fun _ _ => none
    customerResult := fun _ => anaData
    customersResult := fun _ => [anaData, bobData]
    chargeResult := fun _ => charge0 }

/-- The merchant/session context wrapping the all-success mock collaborator. -/
def mAna : Merchant := ⟨okClient⟩

/-- A concrete request-construction error value. -/
def e0 : Err := ⟨"request construction failed"⟩

/-- A mock collaborator whose newRequest always fails with e0. -/
def errClient : Client := { okClient with newRequestErr := fun _ _ _ => some e0 }

/-- The merchant wrapping the newRequest-failing mock. -/
def mErr : Merchant := ⟨errClient⟩

/-- A concrete transport error value. -/
def e1 : Err := ⟨"transport failed"⟩

/-- A mock collaborator whose newRequest succeeds and whose perform always
fails with e1. -/
def perfErrClient : Client := { okClient with performErr := fun _ _ => some e1 }

/-- The merchant wrapping the perform-failing mock. -/
def mPerfErr : Merchant := ⟨perfErrClient⟩

/-- A CustomerArgs with only the required fields populated: name and email
set, every optional field the zero value. -/
def argsMin : CustomerArgs :=
  { ExternalID := "", Name := "Ana", LastName := "",
    Email := "ana@example.com", RequiresAccount := false, PhoneNumber := "",
    Address := addr0 }

/-- A Customer whose Merchant reference was never set. -/
def custNoRef : Customer := { toCustomerData := anaData, Merchant := none }

/-- A Customer holding the all-success merchant reference. -/
def custAna : Customer := { toCustomerData := anaData, Merchant := some mAna }

/-- A Customer with an empty ID and the all-success merchant reference. -/
def custEmptyID : Customer :=
  { toCustomerData := { anaData with ID := "" }, Merchant := some mAna }

/-- A Customer holding the newRequest-failing merchant reference. -/
def custErrRef : Customer := { toCustomerData := anaData, Merchant := some mErr }

/-- A Customer holding the perform-failing merchant reference. -/
def custPerfErrRef : Customer :=
  { toCustomerData := anaData, Merchant := some mPerfErr }

/-- Helper: when newRequest fails, performCustomerOperation returns that error
and performs nothing. -/
theorem performCustomerOperation_newRequestErr (m : Merchant) (verb id : String)
    (data : Option Json) (d : Dst) (e : Err)
    (h : m.client.newRequestErr verb ("customers/" ++ id) data = some e) :
    m.performCustomerOperation verb id data d = (.error e, []) := by
  simp only [Merchant.performCustomerOperation, Client.newRequest, h]

/-- Helper: when newRequest succeeds and perform fails, performCustomerOperation
returns the perform error after executing exactly that one request. -/
theorem performCustomerOperation_performErr (m : Merchant) (verb id : String)
    (data : Option Json) (d : Dst) (e : Err)
    (hreq : m.client.newRequestErr verb ("customers/" ++ id) data = none)
    (hperf : m.client.performErr ⟨verb, "customers/" ++ id, data⟩ d = some e) :
    m.performCustomerOperation verb id data d =
      (.error e, [⟨⟨verb, "customers/" ++ id, data⟩, d⟩]) := by
  simp only [Merchant.performCustomerOperation, Client.newRequest, hreq,
    Client.perform, hperf]

/-- Helper: when both collaborator calls succeed, performCustomerOperation
executes exactly one request, for the given verb on customers/<id> with the
given body, and returns the deserialized value. -/
theorem performCustomerOperation_success (m : Merchant) (verb id : String)
    (data : Option Json) (d : Dst)
    (hreq : m.client.newRequestErr verb ("customers/" ++ id) data = none)
    (hperf : m.client.performErr ⟨verb, "customers/" ++ id, data⟩ d = none) :
    m.performCustomerOperation verb id data d =
      (.ok (m.client.performValue ⟨verb, "customers/" ++ id, data⟩ d),
       [⟨⟨verb, "customers/" ++ id, data⟩, d⟩]) := by
  simp only [Merchant.performCustomerOperation, Client.newRequest, hreq,
    Client.perform, hperf]

/-- C4: for every CustomerArgs input on which newRequest and perform both
succeed, AddCustomer performs exactly one POST to the path customers with the
serialized args as body, and returns the decoded customer with its Merchant
field set to the calling merchant. -/
theorem AddCustomer_success (m : Merchant) (args : CustomerArgs)
    (hreq : m.client.newRequestErr "POST" "customers"
      (some (Json.obj (encodeCustomerArgs args))) = none)
    (hperf : m.client.performErr
      ⟨"POST", "customers", some (Json.obj (encodeCustomerArgs args))⟩
      .customer = none) :
    m.AddCustomer args =
      (.ok { toCustomerData := m.client.customerResult
               ⟨"POST", "customers", some (Json.obj (encodeCustomerArgs args))⟩,
             Merchant := some m },
       [⟨⟨"POST", "customers", some (Json.obj (encodeCustomerArgs args))⟩,
         .customer⟩]) := by
  simp only [Merchant.AddCustomer, Client.newRequest, hreq, Client.perform,
    hperf, Client.performValue]

/-- Witness for C4: on the all-success mock collaborator, both hypotheses hold
for the minimal args, and AddCustomer returns the Ana record carrying the
calling merchant after exactly one POST to customers. -/
theorem AddCustomer_success_w :
    okClient.newRequestErr "POST" "customers"
      (some (Json.obj (encodeCustomerArgs argsMin))) = none ∧
    okClient.performErr
      ⟨"POST", "customers", some (Json.obj (encodeCustomerArgs argsMin))⟩
      .customer = none ∧
    mAna.AddCustomer argsMin =
      (.ok { toCustomerData := anaData, Merchant := some mAna },
       [⟨⟨"POST", "customers", some (Json.obj (encodeCustomerArgs argsMin))⟩,
         .customer⟩]) :=
  ⟨rfl, rfl, AddCustomer_success mAna argsMin rfl rfl⟩

/-- C5: when the collaborator succeeds, GetCustomers returns exactly the list
the collaborator produced, mapped element-by-element to set Merchant to the
calling merchant and change nothing else; hence the result has the same
length and order, and every element carries Merchant = the caller. -/
theorem GetCustomers_success (m : Merchant)
    (hreq : m.client.newRequestErr "GET" "customers" none = none)
    (hperf : m.client.performErr ⟨"GET", "customers", none⟩ .customers = none) :
    m.GetCustomers =
      (.ok ((m.client.customersResult ⟨"GET", "customers", none⟩).map
          fun d => { toCustomerData := d, Merchant := some m }),
       [⟨⟨"GET", "customers", none⟩, .customers⟩]) ∧
    ∀ cs, (m.GetCustomers).1 = .ok cs →
      cs.length = (m.client.customersResult ⟨"GET", "customers", none⟩).length ∧
      ∀ c ∈ cs, c.Merchant = some m := by
  have h1 : m.GetCustomers =
      (.ok ((m.client.customersResult ⟨"GET", "customers", none⟩).map
          fun d => { toCustomerData := d, Merchant := some m }),
       [⟨⟨"GET", "customers", none⟩, .customers⟩]) := by
    simp only [Merchant.GetCustomers, Client.newRequest, hreq, Client.perform,
      hperf, Client.performValue]
  refine ⟨h1, ?_⟩
  intro cs hcs
  rw [h1] at hcs
  simp only [Except.ok.injEq] at hcs
  subst hcs
  refine ⟨List.length_map _ _, ?_⟩
  intro c hc
  simp only [List.mem_map] at hc
  obtain ⟨d, _, rfl⟩ := hc
  rfl

/-- Witness for C5: on the all-success mock collaborator the hypotheses hold,
and GetCustomers returns Ana then Bob in that order, each carrying the calling
merchant, after exactly one GET on customers. -/
theorem GetCustomers_success_w :
    okClient.newRequestErr "GET" "customers" none = none ∧
    okClient.performErr ⟨"GET", "customers", none⟩ .customers = none ∧
    mAna.GetCustomers =
      (.ok [{ toCustomerData := anaData, Merchant := some mAna },
            { toCustomerData := bobData, Merchant := some mAna }],
       [⟨⟨"GET", "customers", none⟩, .customers⟩]) :=
  ⟨rfl, rfl, (GetCustomers_success mAna rfl rfl).1⟩

/-- C6: for every customer id, when the collaborator succeeds, GetCustomer
performs exactly one GET to the path customers/<id> and returns the decoded
customer with Merchant set to the calling merchant. -/
theorem GetCustomer_success (m : Merchant) (id : String)
    (hreq : m.client.newRequestErr "GET" ("customers/" ++ id) none = none)
    (hperf : m.client.performErr ⟨"GET", "customers/" ++ id, none⟩
      .customer = none) :
    m.GetCustomer id =
      (.ok { toCustomerData :=
               m.client.customerResult ⟨"GET", "customers/" ++ id, none⟩,
             Merchant := some m },
       [⟨⟨"GET", "customers/" ++ id, none⟩, .customer⟩]) := by
  rw [Merchant.GetCustomer,
    performCustomerOperation_success m "GET" id none .customer hreq hperf]
  rfl

/-- Witness for C6, the end-to-end scenario: the mock collaborator answers
GET customers/cust_1 by populating the destination with id cust_1 and name
Ana, and GetCustomer applied to cust_1 returns that customer with Merchant
equal to the calling context, after exactly one GET to customers/cust_1. -/
theorem GetCustomer_success_w :
    okClient.newRequestErr "GET" ("customers/" ++ "cust_1") none = none ∧
    okClient.performErr ⟨"GET", "customers/" ++ "cust_1", none⟩
      .customer = none ∧
    anaData.ID = "cust_1" ∧ anaData.Name = "Ana" ∧
    mAna.GetCustomer "cust_1" =
      (.ok { toCustomerData := anaData, Merchant := some mAna },
       [⟨⟨"GET", "customers/" ++ "cust_1", none⟩, .customer⟩]) :=
  ⟨rfl, rfl, rfl, rfl, GetCustomer_success mAna "cust_1" rfl rfl⟩

/-- C7: for every customer id, when the collaborator succeeds, DeleteCustomer
performs exactly one DELETE to the path customers/<id> with no request body
and a nil destination (so no response body is deserialized), and returns only
the absence of an error. -/
theorem DeleteCustomer_success (m : Merchant) (id : String)
    (hreq : m.client.newRequestErr "DELETE" ("customers/" ++ id) none = none)
    (hperf : m.client.performErr ⟨"DELETE", "customers/" ++ id, none⟩
      .nodst = none) :
    m.DeleteCustomer id =
      (.ok (), [⟨⟨"DELETE", "customers/" ++ id, none⟩, .nodst⟩]) := by
  rw [Merchant.DeleteCustomer,
    performCustomerOperation_success m "DELETE" id none .nodst hreq hperf]
  rfl

/-- Witness for C7: on the all-success mock collaborator the hypotheses hold,
and DeleteCustomer performs exactly one DELETE to customers/cust_1 with no
body and no destination, returning no value. -/
theorem DeleteCustomer_success_w :
    okClient.newRequestErr "DELETE" ("customers/" ++ "cust_1") none = none ∧
    okClient.performErr ⟨"DELETE", "customers/" ++ "cust_1", none⟩
      .nodst = none ∧
    mAna.DeleteCustomer "cust_1" =
      (.ok (), [⟨⟨"DELETE", "customers/" ++ "cust_1", none⟩, .nodst⟩]) :=
  ⟨rfl, rfl, DeleteCustomer_success mAna "cust_1" rfl rfl⟩

/-- C1 counterexample: on a concrete Customer whose Merchant reference is
unset, ChargeCustomer does not fail with a missing-reference error; the run
is a nil-pointer-dereference panic (Exec.nilPanic), i.e. the crash the claim
says is avoided.  No error-returning outcome (Exec.ok) is produced. -/
theorem ChargeCustomer_nilMerchant_cex :
    Customer.ChargeCustomer custNoRef none Dst.charge = Exec.nilPanic ∧
    (Customer.ChargeCustomer custNoRef none Dst.charge).completes = false :=
  ⟨rfl, rfl⟩

/-- C1 amended: for every Customer whose Merchant reference is unset,
ChargeCustomer panics by dereferencing the nil reference (no request is built
and no missing-reference error value is returned). -/
theorem ChargeCustomer_nilMerchant_panics (c : Customer) (data : Option Json)
    (d : Dst) (h : c.Merchant = none) :
    c.ChargeCustomer data d = Exec.nilPanic := by
  simp only [Customer.ChargeCustomer, h]

/-- Witness for the amended C1: the concrete unset-reference customer panics
also on a POST carrying a body. -/
theorem ChargeCustomer_nilMerchant_panics_w :
    custNoRef.Merchant = none ∧
    custNoRef.ChargeCustomer (some (Json.obj [])) Dst.charge = Exec.nilPanic :=
  ⟨rfl, ChargeCustomer_nilMerchant_panics custNoRef (some (Json.obj []))
    Dst.charge rfl⟩

/-- C2: the Merchant back-reference field of Customer has no json tag in the
source (in particular no json dash tag), so Go encoding/json serializes it
under the key Merchant in every encoded Customer, contradicting the
never-serialized claim; and this encoding is exactly the body UpdateCustomer
sends as its PUT request, shown here at a concrete customer (where the key
carries the value null, since the reference of custNoRef is unset). -/
theorem Merchant_field_is_serialized :
    (∀ c : Customer, "Merchant" ∈ (encodeCustomer c).map Prod.fst) ∧
    (mAna.UpdateCustomer "cust_1" custNoRef).2 =
      [⟨⟨"PUT", "customers/" ++ "cust_1",
         some (Json.obj (encodeCustomer custNoRef))⟩, .customer⟩] := by
  constructor
  · intro c
    by_cases h : c.ID = "" <;> simp [encodeCustomer, h]
  · rw [Merchant.UpdateCustomer, performCustomerOperation_success mAna "PUT"
      "cust_1" (some (Json.obj (encodeCustomer custNoRef))) .customer rfl rfl]

/-- C3, evaluated at the failing input: serializing a CustomerArgs with only
the required fields populated omits the empty external_id, last_name and
phone_number (omitempty on empty strings), but the address object is still
emitted, because Go encoding/json gives omitempty no effect on a struct-typed
field; the claim says the empty Address is absent. -/
theorem encodeCustomerArgs_minimal_keys :
    (encodeCustomerArgs argsMin).map Prod.fst =
      ["name", "email", "requires_acount", "address"] := by
  decide

/-- C8: every error produced by the collaborator, whether by newRequest or by
perform, is returned unchanged by each of the six operations, and the error
case carries no result value (the result component is the error alone, never
a partial customer, list, unit or charge).  The trace component also shows
which requests had been executed when the error was returned. -/
theorem operations_propagate_errors :
    (∀ (m : Merchant) (args : CustomerArgs) (e : Err),
      m.client.newRequestErr "POST" "customers"
        (some (Json.obj (encodeCustomerArgs args))) = some e →
      m.AddCustomer args = (.error e, [])) ∧
    (∀ (m : Merchant) (args : CustomerArgs) (e : Err),
      m.client.newRequestErr "POST" "customers"
        (some (Json.obj (encodeCustomerArgs args))) = none →
      m.client.performErr
        ⟨"POST", "customers", some (Json.obj (encodeCustomerArgs args))⟩
        .customer = some e →
      m.AddCustomer args =
        (.error e,
         [⟨⟨"POST", "customers", some (Json.obj (encodeCustomerArgs args))⟩,
           .customer⟩])) ∧
    (∀ (m : Merchant) (e : Err),
      m.client.newRequestErr "GET" "customers" none = some e →
      m.GetCustomers = (.error e, [])) ∧
    (∀ (m : Merchant) (e : Err),
      m.client.newRequestErr "GET" "customers" none = none →
      m.client.performErr ⟨"GET", "customers", none⟩ .customers = some e →
      m.GetCustomers = (.error e, [⟨⟨"GET", "customers", none⟩, .customers⟩])) ∧
    (∀ (m : Merchant) (id : String) (e : Err),
      m.client.newRequestErr "GET" ("customers/" ++ id) none = some e →
      m.GetCustomer id = (.error e, [])) ∧
    (∀ (m : Merchant) (id : String) (e : Err),
      m.client.newRequestErr "GET" ("customers/" ++ id) none = none →
      m.client.performErr ⟨"GET", "customers/" ++ id, none⟩ .customer = some e →
      m.GetCustomer id =
        (.error e, [⟨⟨"GET", "customers/" ++ id, none⟩, .customer⟩])) ∧
    (∀ (m : Merchant) (id : String) (data : Customer) (e : Err),
      m.client.newRequestErr "PUT" ("customers/" ++ id)
        (some (Json.obj (encodeCustomer data))) = some e →
      m.UpdateCustomer id data = (.error e, [])) ∧
    (∀ (m : Merchant) (id : String) (data : Customer) (e : Err),
      m.client.newRequestErr "PUT" ("customers/" ++ id)
        (some (Json.obj (encodeCustomer data))) = none →
      m.client.performErr
        ⟨"PUT", "customers/" ++ id, some (Json.obj (encodeCustomer data))⟩
        .customer = some e →
      m.UpdateCustomer id data =
        (.error e,
         [⟨⟨"PUT", "customers/" ++ id, some (Json.obj (encodeCustomer data))⟩,
           .customer⟩])) ∧
    (∀ (m : Merchant) (id : String) (e : Err),
      m.client.newRequestErr "DELETE" ("customers/" ++ id) none = some e →
      m.DeleteCustomer id = (.error e, [])) ∧
    (∀ (m : Merchant) (id : String) (e : Err),
      m.client.newRequestErr "DELETE" ("customers/" ++ id) none = none →
      m.client.performErr ⟨"DELETE", "customers/" ++ id, none⟩ .nodst = some e →
      m.DeleteCustomer id =
        (.error e, [⟨⟨"DELETE", "customers/" ++ id, none⟩, .nodst⟩])) ∧
    (∀ (m : Merchant) (c : Customer) (data : Option Json) (d : Dst) (e : Err),
      c.Merchant = some m →
      m.client.newRequestErr "POST" ("customers/" ++ (c.ID ++ "/charges"))
        data = some e →
      c.ChargeCustomer data d = .ok (.error e, [])) ∧
    (∀ (m : Merchant) (c : Customer) (data : Option Json) (d : Dst) (e : Err),
      c.Merchant = some m →
      m.client.newRequestErr "POST" ("customers/" ++ (c.ID ++ "/charges"))
        data = none →
      m.client.performErr
        ⟨"POST", "customers/" ++ (c.ID ++ "/charges"), data⟩ d = some e →
      c.ChargeCustomer data d =
        .ok (.error e,
             [⟨⟨"POST", "customers/" ++ (c.ID ++ "/charges"), data⟩, d⟩])) := by
  refine ⟨?_, ?_, ?_, ?_, ?_, ?_, ?_, ?_, ?_, ?_, ?_, ?_⟩
  · intro m args e h
    simp only [Merchant.AddCustomer, Client.newRequest, h]
  · intro m args e hreq hperf
    simp only [Merchant.AddCustomer, Client.newRequest, hreq, Client.perform,
      hperf]
  · intro m e h
    simp only [Merchant.GetCustomers, Client.newRequest, h]
  · intro m e hreq hperf
    simp only [Merchant.GetCustomers, Client.newRequest, hreq, Client.perform,
      hperf]
  · intro m id e h
    rw [Merchant.GetCustomer,
      performCustomerOperation_newRequestErr m "GET" id none .customer e h]
  · intro m id e hreq hperf
    rw [Merchant.GetCustomer,
      performCustomerOperation_performErr m "GET" id none .customer e hreq hperf]
  · intro m id data e h
    rw [Merchant.UpdateCustomer, performCustomerOperation_newRequestErr m "PUT"
      id (some (Json.obj (encodeCustomer data))) .customer e h]
  · intro m id data e hreq hperf
    rw [Merchant.UpdateCustomer, performCustomerOperation_performErr m "PUT"
      id (some (Json.obj (encodeCustomer data))) .customer e hreq hperf]
  · intro m id e h
    rw [Merchant.DeleteCustomer,
      performCustomerOperation_newRequestErr m "DELETE" id none .nodst e h]
  · intro m id e hreq hperf
    rw [Merchant.DeleteCustomer,
      performCustomerOperation_performErr m "DELETE" id none .nodst e hreq hperf]
  · intro m c data d e hm h
    simp only [Customer.ChargeCustomer, hm]
    rw [performCustomerOperation_newRequestErr m "POST" (c.ID ++ "/charges")
      data d e h]
  · intro m c data d e hm hreq hperf
    simp only [Customer.ChargeCustomer, hm]
    rw [performCustomerOperation_performErr m "POST" (c.ID ++ "/charges")
      data d e hreq hperf]

/-- Witness for C8: each of the twelve propagation cases, instantiated on the
failing mock collaborators; the newRequest-failing mock yields e0 with an
empty trace, the perform-failing mock yields e1 after its one request. -/
theorem operations_propagate_errors_w :
    mErr.AddCustomer argsMin = (.error e0, []) ∧
    mPerfErr.AddCustomer argsMin =
      (.error e1,
       [⟨⟨"POST", "customers", some (Json.obj (encodeCustomerArgs argsMin))⟩,
         .customer⟩]) ∧
    mErr.GetCustomers = (.error e0, []) ∧
    mPerfErr.GetCustomers =
      (.error e1, [⟨⟨"GET", "customers", none⟩, .customers⟩]) ∧
    mErr.GetCustomer "cust_1" = (.error e0, []) ∧
    mPerfErr.GetCustomer "cust_1" =
      (.error e1, [⟨⟨"GET", "customers/" ++ "cust_1", none⟩, .customer⟩]) ∧
    mErr.UpdateCustomer "cust_1" custNoRef = (.error e0, []) ∧
    mPerfErr.UpdateCustomer "cust_1" custNoRef =
      (.error e1,
       [⟨⟨"PUT", "customers/" ++ "cust_1",
          some (Json.obj (encodeCustomer custNoRef))⟩, .customer⟩]) ∧
    mErr.DeleteCustomer "cust_1" = (.error e0, []) ∧
    mPerfErr.DeleteCustomer "cust_1" =
      (.error e1, [⟨⟨"DELETE", "customers/" ++ "cust_1", none⟩, .nodst⟩]) ∧
    custErrRef.ChargeCustomer none Dst.charge = .ok (.error e0, []) ∧
    custPerfErrRef.ChargeCustomer none Dst.charge =
      .ok (.error e1,
           [⟨⟨"POST", "customers/" ++ ("cust_1" ++ "/charges"), none⟩,
             Dst.charge⟩]) := by
  obtain ⟨h1, h2, h3, h4, h5, h6, h7, h8, h9, h10, h11, h12⟩ :=
    operations_propagate_errors
  exact ⟨h1 mErr argsMin e0 rfl, h2 mPerfErr argsMin e1 rfl rfl,
    h3 mErr e0 rfl, h4 mPerfErr e1 rfl rfl,
    h5 mErr "cust_1" e0 rfl, h6 mPerfErr "cust_1" e1 rfl rfl,
    h7 mErr "cust_1" custNoRef e0 rfl, h8 mPerfErr "cust_1" custNoRef e1 rfl rfl,
    h9 mErr "cust_1" e0 rfl, h10 mPerfErr "cust_1" e1 rfl rfl,
    h11 mErr custErrRef none Dst.charge e0 rfl rfl,
    h12 mPerfErr custPerfErrRef none Dst.charge e1 rfl rfl rfl⟩

/-- C9: whenever newRequest reports an error, no operation invokes perform:
the trace of executed requests is empty (for ChargeCustomer, the completed
run carries the error and an empty trace). -/
theorem no_perform_on_newRequestErr :
    (∀ (m : Merchant) (args : CustomerArgs) (e : Err),
      m.client.newRequestErr "POST" "customers"
        (some (Json.obj (encodeCustomerArgs args))) = some e →
      (m.AddCustomer args).2 = []) ∧
    (∀ (m : Merchant) (e : Err),
      m.client.newRequestErr "GET" "customers" none = some e →
      (m.GetCustomers).2 = []) ∧
    (∀ (m : Merchant) (id : String) (e : Err),
      m.client.newRequestErr "GET" ("customers/" ++ id) none = some e →
      (m.GetCustomer id).2 = []) ∧
    (∀ (m : Merchant) (id : String) (data : Customer) (e : Err),
      m.client.newRequestErr "PUT" ("customers/" ++ id)
        (some (Json.obj (encodeCustomer data))) = some e →
      (m.UpdateCustomer id data).2 = []) ∧
    (∀ (m : Merchant) (id : String) (e : Err),
      m.client.newRequestErr "DELETE" ("customers/" ++ id) none = some e →
      (m.DeleteCustomer id).2 = []) ∧
    (∀ (m : Merchant) (c : Customer) (data : Option Json) (d : Dst) (e : Err),
      c.Merchant = some m →
      m.client.newRequestErr "POST" ("customers/" ++ (c.ID ++ "/charges"))
        data = some e →
      c.ChargeCustomer data d = .ok (.error e, [])) := by
  refine ⟨?_, ?_, ?_, ?_, ?_, ?_⟩
  · intro m args e h
    simp only [Merchant.AddCustomer, Client.newRequest, h]
  · intro m e h
    simp only [Merchant.GetCustomers, Client.newRequest, h]
  · intro m id e h
    rw [Merchant.GetCustomer,
      performCustomerOperation_newRequestErr m "GET" id none .customer e h]
  · intro m id data e h
    rw [Merchant.UpdateCustomer, performCustomerOperation_newRequestErr m "PUT"
      id (some (Json.obj (encodeCustomer data))) .customer e h]
  · intro m id e h
    rw [Merchant.DeleteCustomer,
      performCustomerOperation_newRequestErr m "DELETE" id none .nodst e h]
  · intro m c data d e hm h
    simp only [Customer.ChargeCustomer, hm]
    rw [performCustomerOperation_newRequestErr m "POST" (c.ID ++ "/charges")
      data d e h]

/-- Witness for C9: on the newRequest-failing mock, every operation executes
no request at all. -/
theorem no_perform_on_newRequestErr_w :
    (mErr.AddCustomer argsMin).2 = [] ∧
    (mErr.GetCustomers).2 = [] ∧
    (mErr.GetCustomer "cust_1").2 = [] ∧
    (mErr.UpdateCustomer "cust_1" custNoRef).2 = [] ∧
    (mErr.DeleteCustomer "cust_1").2 = [] ∧
    custErrRef.ChargeCustomer (some (Json.obj [])) Dst.charge =
      .ok (.error e0, []) := by
  obtain ⟨h1, h2, h3, h4, h5, h6⟩ := no_perform_on_newRequestErr
  exact ⟨h1 mErr argsMin e0 rfl, h2 mErr e0 rfl, h3 mErr "cust_1" e0 rfl,
    h4 mErr "cust_1" custNoRef e0 rfl, h5 mErr "cust_1" e0 rfl,
    h6 mErr custErrRef (some (Json.obj [])) Dst.charge e0 rfl rfl⟩

/-- C10: the customer id is interpolated verbatim into the resource path with
no validation or escaping: GetCustomer on any id addresses customers/<id>
exactly; a Customer with an empty ID charges through POST customers//charges;
and GetCustomer, UpdateCustomer and DeleteCustomer on the empty id address
the path customers/ . -/
theorem paths_interpolate_id_verbatim :
    (∀ (m : Merchant) (id : String),
      m.client.newRequestErr "GET" ("customers/" ++ id) none = none →
      m.client.performErr ⟨"GET", "customers/" ++ id, none⟩ .customer = none →
      (m.GetCustomer id).2 =
        [⟨⟨"GET", "customers/" ++ id, none⟩, .customer⟩]) ∧
    (∀ (m : Merchant) (c : Customer) (data : Option Json) (d : Dst),
      c.Merchant = some m →
      c.ID = "" →
      m.client.newRequestErr "POST" "customers//charges" data = none →
      m.client.performErr ⟨"POST", "customers//charges", data⟩ d = none →
      c.ChargeCustomer data d =
        .ok (.ok (m.client.performValue ⟨"POST", "customers//charges", data⟩ d),
             [⟨⟨"POST", "customers//charges", data⟩, d⟩])) ∧
    (∀ (m : Merchant),
      m.client.newRequestErr "GET" "customers/" none = none →
      m.client.performErr ⟨"GET", "customers/", none⟩ .customer = none →
      (m.GetCustomer "").2 = [⟨⟨"GET", "customers/", none⟩, .customer⟩]) ∧
    (∀ (m : Merchant) (data : Customer),
      m.client.newRequestErr "PUT" "customers/"
        (some (Json.obj (encodeCustomer data))) = none →
      m.client.performErr ⟨"PUT", "customers/",
        some (Json.obj (encodeCustomer data))⟩ .customer = none →
      (m.UpdateCustomer "" data).2 =
        [⟨⟨"PUT", "customers/", some (Json.obj (encodeCustomer data))⟩,
          .customer⟩]) ∧
    (∀ (m : Merchant),
      m.client.newRequestErr "DELETE" "customers/" none = none →
      m.client.performErr ⟨"DELETE", "customers/", none⟩ .nodst = none →
      (m.DeleteCustomer "").2 = [⟨⟨"DELETE", "customers/", none⟩, .nodst⟩]) := by
  refine ⟨?_, ?_, ?_, ?_, ?_⟩
  · intro m id hreq hperf
    rw [Merchant.GetCustomer,
      performCustomerOperation_success m "GET" id none .customer hreq hperf]
  · intro m c data d hm hid hreq hperf
    simp only [Customer.ChargeCustomer, hm, hid]
    rw [performCustomerOperation_success m "POST" ("" ++ "/charges")
      data d hreq hperf]
    rfl
  · intro m hreq hperf
    rw [Merchant.GetCustomer,
      performCustomerOperation_success m "GET" "" none .customer hreq hperf]
    rfl
  · intro m data hreq hperf
    rw [Merchant.UpdateCustomer, performCustomerOperation_success m "PUT" ""
      (some (Json.obj (encodeCustomer data))) .customer hreq hperf]
    rfl
  · intro m hreq hperf
    rw [Merchant.DeleteCustomer,
      performCustomerOperation_success m "DELETE" "" none .nodst hreq hperf]
    rfl

/-- Witness for C10: on the all-success mock, GetCustomer of cust_9 addresses
customers/cust_9; the empty-ID customer charges via POST customers//charges;
and the empty-id fetch, update and delete all address customers/ . -/
theorem paths_interpolate_id_verbatim_w :
    (mAna.GetCustomer "cust_9").2 =
      [⟨⟨"GET", "customers/" ++ "cust_9", none⟩, .customer⟩] ∧
    custEmptyID.ChargeCustomer none Dst.charge =
      .ok (.ok charge0, [⟨⟨"POST", "customers//charges", none⟩, Dst.charge⟩]) ∧
    (mAna.GetCustomer "").2 = [⟨⟨"GET", "customers/", none⟩, .customer⟩] ∧
    (mAna.UpdateCustomer "" custNoRef).2 =
      [⟨⟨"PUT", "customers/", some (Json.obj (encodeCustomer custNoRef))⟩,
        .customer⟩] ∧
    (mAna.DeleteCustomer "").2 = [⟨⟨"DELETE", "customers/", none⟩, .nodst⟩] := by
  obtain ⟨h1, h2, h3, h4, h5⟩ := paths_interpolate_id_verbatim
  exact ⟨h1 mAna "cust_9" rfl rfl,
    h2 mAna custEmptyID none Dst.charge rfl rfl rfl rfl,
    h3 mAna rfl rfl, h4 mAna custNoRef rfl rfl, h5 mAna rfl rfl⟩
